import Mathlib

/-!
Verification development for the cluster-management core of the
device-manager service (`src/cluster/routes.py`, `src/cluster/service.py`,
`src/cluster/models.py`, `src/cluster/crypto.py`, `src/devices/crypto.py`).

Timestamps are modelled as rational numbers of seconds (Python `datetime`
arithmetic via `total_seconds()` yields fractional seconds).  Randomness
(UUID jti values, generated CA key material, certificate serial numbers) and
network traffic (peer replies during pairing and probing) are modelled as
explicit inputs to the operations.  Database tables are modelled as lists of
rows in storage order; SQLAlchemy `query(...).first()` is first-match search,
and committed mutations are explicit state passing.
-/

/-- One row of the `device_metadata` table: `key` is the primary key, `value`
is a nullable string (`service.py`, `models.py:DeviceMetadata`). -/
structure DeviceMetadataRow where
  key : String
  value : Option String
deriving DecidableEq

/-- `service.get_metadata`: value of the first row with the given key,
`None` when the row is absent or holds a null value. -/
def get_metadata : List DeviceMetadataRow → String → Option String
  | [], _ => none
  | r :: rs, k => if r.key = k then r.value else get_metadata rs k

/-- `service.set_metadata`: update the first row with the given key in place,
or append a fresh row when none exists. -/
def set_metadata : List DeviceMetadataRow → String → Option String → List DeviceMetadataRow
  | [], k, v => [⟨k, v⟩]
  | r :: rs, k, v => if r.key = k then ⟨r.key, v⟩ :: rs else r :: set_metadata rs k v

/-- The keys seeded by `service.ensure_default_metadata`, in source order. -/
def defaultMetadataKeys : List String :=
  ["node_role", "cluster_id", "ca_cert_pem", "ca_key_pem", "ca_fingerprint",
   "device_id", "device_name", "device_model", "device_location", "device_group"]

/-- `service.ensure_default_metadata`: for each expected key whose value reads
as `None`, store a null value (the seeded default is `None` for every key). -/
def ensure_default_metadata (m : List DeviceMetadataRow) : List DeviceMetadataRow :=
  defaultMetadataKeys.foldl
    (fun acc k => if (get_metadata acc k).isSome then acc else set_metadata acc k none) m

/-- Python truthiness fallback `v or d` on an optional string: `None` and the
empty string fall through to the default. -/
def pyOr (v : Option String) (d : String) : String :=
  match v with
  | none => d
  | some s => if s = "" then d else s

/-- Python falsiness of an optional string (`not v`): true for `None` and `""`. -/
def isBlank (v : Option String) : Bool :=
  match v with
  | none => true
  | some s => s = ""

/-- One row of the `paired_devices` table (`models.py:PairedDevice`).  The
autoincrement surrogate id is represented by list position. -/
structure PairedDevice where
  device_id : String
  ip_address : String
  role : String
  cluster_id : Option String
  shared_secret : Option String
  paired_at : Option ℚ
  last_seen : Option ℚ
deriving DecidableEq

/-- One row of the `pairing_tokens` table (`models.py:PairingToken`). -/
structure PairingToken where
  token : String
  source_device_id : Option String
  target_device_id : Option String
  cluster_id : Option String
  created_at : ℚ
  expires_at : ℚ
  used : Bool
deriving DecidableEq

/-- The manager node's persistent state: the three tables the cluster routes
read and write. -/
structure ClusterState where
  metadata : List DeviceMetadataRow
  paired_devices : List PairedDevice
  pairing_tokens : List PairingToken
deriving DecidableEq

/-- An X.509 name, reduced to the single common-name attribute the source
ever sets. -/
structure X509Name where
  common_name : String
deriving DecidableEq

/-- A certificate signing request: subject, DNS-name entries of the
subject-alternative-name extension, and the (opaque) public key. -/
structure CSR where
  subject : X509Name
  san : List String
  public_key : String
deriving DecidableEq

/-- A signed certificate as built by `sign_csr`'s `CertificateBuilder` chain:
subject from the CSR, issuer taken from the stored CA certificate (kept here
as the CA PEM it was loaded from), public key from the CSR, random serial,
validity window, and the SAN DNS entries. -/
structure Certificate where
  subject : X509Name
  issuer_ca_pem : String
  public_key : String
  serial : ℕ
  not_valid_before : ℚ
  not_valid_after : ℚ
  san : List String
deriving DecidableEq

/-- The outcome of `cluster.crypto.generate_ca`: CA certificate PEM, private
key PEM and SHA-256 fingerprint.  Key generation is random, so a fresh
material value is passed into each operation that may call `generate_ca`. -/
structure CAMaterial where
  cert_pem : String
  key_pem : String
  fingerprint : String
deriving DecidableEq

/-- The opaque public key derived from a private key PEM. -/
def publicKeyOf (private_key_pem : String) : String := "pub:" ++ private_key_pem

/-- `devices.crypto.generate_key_and_csr`: fresh P-256 key (passed in as the
random outcome), subject with the given common name, and a SAN with the two
synthetic DNS entries tagging the device and cluster identity.  Returns
(private key PEM, CSR). -/
def generate_key_and_csr (common_name device_id cluster_id : String)
    (private_key : String) : String × CSR :=
  (private_key,
   { subject := ⟨common_name⟩,
     san := ["device:" ++ device_id, "cluster:" ++ cluster_id],
     public_key := publicKeyOf private_key })

/-- Request body of `POST /cluster/sign-csr` (`routes.py:CSRPayload`).  PEM
decoding of the CSR is modelled as the identity. -/
structure CSRPayload where
  csr_pem : CSR
  device_id : String
  cluster_id : String
  name : Option String
deriving DecidableEq

/-- Response of `POST /cluster/sign-csr` (`routes.py:CertBundle`). -/
structure CertBundle where
  device_cert_pem : Certificate
  ca_cert_pem : String
  expires_at : ℚ
deriving DecidableEq

/-- The certificate `sign_csr` builds for a payload once the CA PEM is in
hand: validity `[now − 1 min, now + 60 days]` and the two-entry SAN rebuilt
from the payload's `device_id` and `cluster_id`. -/
def buildDeviceCert (payload : CSRPayload) (ca_cert_pem : String) (now : ℚ)
    (serial : ℕ) : Certificate :=
  { subject := payload.csr_pem.subject
    issuer_ca_pem := ca_cert_pem
    public_key := payload.csr_pem.public_key
    serial := serial
    not_valid_before := now - 60
    not_valid_after := now + 60 * 86400
    san := ["device:" ++ payload.device_id, "cluster:" ++ payload.cluster_id] }

/-- The three `set_metadata` calls storing freshly generated CA material
(the common block of `sign_csr`'s auto-bootstrap and `bootstrap_ca`). -/
def store_ca (m : List DeviceMetadataRow) (gen : CAMaterial) :
    List DeviceMetadataRow :=
  set_metadata
    (set_metadata (set_metadata m "ca_cert_pem" (some gen.cert_pem))
      "ca_key_pem" (some gen.key_pem))
    "ca_fingerprint" (some gen.fingerprint)

/-- `routes.sign_csr`: ensure default metadata, read the stored CA; when the
CA certificate or key reads as falsy, auto-bootstrap a CA (the random outcome
`gen`) into the metadata store and re-read it; then sign the CSR.  Returns
the updated metadata and the certificate bundle. -/
def sign_csr (m0 : List DeviceMetadataRow) (payload : CSRPayload) (now : ℚ)
    (gen : CAMaterial) (serial : ℕ) : List DeviceMetadataRow × CertBundle :=
  let m := ensure_default_metadata m0
  let ca_cert0 := get_metadata m "ca_cert_pem"
  let ca_key0 := get_metadata m "ca_key_pem"
  if isBlank ca_cert0 || isBlank ca_key0 then
    let m := store_ca m gen
    let ca_cert_pem := (get_metadata m "ca_cert_pem").getD ""
    (m, { device_cert_pem := buildDeviceCert payload ca_cert_pem now serial,
          ca_cert_pem := ca_cert_pem,
          expires_at := now + 60 * 86400 })
  else
    let ca_cert_pem := ca_cert0.getD ""
    (m, { device_cert_pem := buildDeviceCert payload ca_cert_pem now serial,
          ca_cert_pem := ca_cert_pem,
          expires_at := now + 60 * 86400 })

/-- Python `int(...)` on a rational number of seconds: truncation toward
zero. -/
def pyInt (q : ℚ) : ℤ := Int.tdiv q.num q.den

/-- Response of `POST /cluster/bootstrap-ca`. -/
structure BootstrapResult where
  cluster_id : String
  ca_cert_pem : String
  ca_fingerprint : String
deriving DecidableEq

/-- The cluster-id block of `routes.bootstrap_ca`: mint
`cluster-<int timestamp>` and store it when no truthy cluster id is present,
else keep the stored one.  Returns the updated metadata and the cluster id. -/
def bootstrap_cluster_id (m : List DeviceMetadataRow) (now : ℚ) :
    List DeviceMetadataRow × String :=
  let cid0 := get_metadata m "cluster_id"
  if isBlank cid0 then
    let cid := "cluster-" ++ toString (pyInt now)
    (set_metadata m "cluster_id" (some cid), cid)
  else (m, cid0.getD "")

/-- `routes.bootstrap_ca`: ensure defaults; mint `cluster-<int timestamp>`
when no truthy cluster id is stored; generate and store CA material when any
of certificate, key or fingerprint reads as falsy; return the resulting
cluster id, CA certificate and fingerprint. -/
def bootstrap_ca (m0 : List DeviceMetadataRow) (now : ℚ) (gen : CAMaterial) :
    List DeviceMetadataRow × BootstrapResult :=
  let p := bootstrap_cluster_id (ensure_default_metadata m0) now
  let m := p.1
  let cluster_id := p.2
  let cert0 := get_metadata m "ca_cert_pem"
  let key0 := get_metadata m "ca_key_pem"
  let fp0 := get_metadata m "ca_fingerprint"
  if isBlank cert0 || isBlank key0 || isBlank fp0 then
    (store_ca m gen, ⟨cluster_id, gen.cert_pem, gen.fingerprint⟩)
  else
    (m, ⟨cluster_id, cert0.getD "", fp0.getD ""⟩)

/-- Request body of `POST /cluster/pairing-token`. -/
structure PairingTokenRequest where
  target_device_id : Option String
  target_ip : Option String
deriving DecidableEq

/-- The claims dictionary signed into the pairing token (`routes.py`,
`create_pairing_token`); signing with the app secret is modelled as the
identity on the claims. -/
structure TokenClaims where
  iss : String
  aud : String
  sub : String
  cluster_id : String
  jti : String
  exp : ℤ
  target_ip : Option String
  target_device_id : Option String
deriving DecidableEq

/-- Response of `POST /cluster/pairing-token` (`routes.py:PairingTokenResponse`). -/
structure PairingTokenResponse where
  token : TokenClaims
  exp : ℚ
  cluster_id : String
  jti : String
deriving DecidableEq

/-- `routes.create_pairing_token`: expiry is now + 10 minutes, the fresh UUID
jti is an input, the cluster id falls back to `"cluster-stub"` when the
stored value is falsy; a `PairingToken` row keyed by the jti is committed
(the row's `created_at` column defaults to the insert time `now`), and the
signed claims are returned together with expiry, cluster id and jti. -/
def create_pairing_token (s : ClusterState) (req : PairingTokenRequest)
    (now : ℚ) (jti : String) : ClusterState × PairingTokenResponse :=
  let exp := now + 10 * 60
  let m := ensure_default_metadata s.metadata
  let cluster_id := pyOr (get_metadata m "cluster_id") "cluster-stub"
  let row : PairingToken :=
    { token := jti, source_device_id := none,
      target_device_id := req.target_device_id,
      cluster_id := some cluster_id, created_at := now, expires_at := exp,
      used := false }
  let claims : TokenClaims :=
    { iss := "manager", aud := "device", sub := "pairing",
      cluster_id := cluster_id, jti := jti, exp := pyInt exp,
      target_ip := req.target_ip, target_device_id := req.target_device_id }
  ({ s with metadata := m, pairing_tokens := s.pairing_tokens ++ [row] },
   { token := claims, exp := exp, cluster_id := cluster_id, jti := jti })

/-- The persist/update block at the end of `pair_device_via_manager`: the
first row with the given `device_id` is updated in place (address, role
forced to `"member"`, cluster id, `last_seen := now`, `paired_at` only when
previously unset); when no row matches, a fresh row is appended. -/
def upsert_paired_device (rows : List PairedDevice) (device_id target_ip : String)
    (cluster_id : Option String) (now : ℚ) : List PairedDevice :=
  match rows with
  | [] =>
    [{ device_id := device_id, ip_address := target_ip, role := "member",
       cluster_id := cluster_id, shared_secret := none,
       paired_at := some now, last_seen := some now }]
  | pd :: rest =>
    if pd.device_id = device_id then
      { pd with
        ip_address := target_ip, role := "member",
        cluster_id := cluster_id, last_seen := some now,
        paired_at := (match pd.paired_at with
          | none => some now
          | some p => some p) } :: rest
    else pd :: upsert_paired_device rest device_id target_ip cluster_id now

/-- Outcome of `POST /cluster/pair`: either the success summary or an
`HTTPException` with its status code and detail prefix. -/
inductive PairOutcome where
  | ok (status : String) (relationship : String) (ip_address : String) (device_id : String)
  | httpError (code : ℕ) (detail : String)
deriving DecidableEq

/-- `routes.pair_device_via_manager`: reject a falsy target, reject when a
paired row already holds the target address (before any token is minted),
then mint a pairing token, ask the device for a CSR (network outcome
`csrReply`, `none` = request failed), sign it, install the certificate on
the device (network outcome `installReply`, `none` = install failed;
`some st` carries the device's optional `status` field), upsert the paired
row and best-effort persist the friendly name.  Each committed step's state
survives a later failure. -/
def pair_device_via_manager (s : ClusterState) (target_ip : String) (now : ℚ)
    (jti : String) (csrReply : Option CSRPayload) (gen : CAMaterial)
    (serial : ℕ) (installReply : Option (Option String)) :
    ClusterState × PairOutcome :=
  if target_ip = "" then (s, .httpError 400 "target_ip required")
  else if (s.paired_devices.find? (fun pd => pd.ip_address = target_ip)).isSome then
    (s, .httpError 409 "Device already paired")
  else
    let s := (create_pairing_token s ⟨none, some target_ip⟩ now jti).1
    match csrReply with
    | none => (s, .httpError 408 "Device CSR request failed")
    | some device_csr =>
      let s := { s with metadata := (sign_csr s.metadata device_csr now gen serial).1 }
      match installReply with
      | none => (s, .httpError 500 "Device cert install failed")
      | some install_status =>
        let device_name := device_csr.name
        let m := ensure_default_metadata s.metadata
        let cluster_id := get_metadata m "cluster_id"
        let device_id := device_csr.device_id
        let rows := upsert_paired_device s.paired_devices device_id target_ip cluster_id now
        let m :=
          match device_name with
          | some nm =>
            if nm = "" then m
            else set_metadata m ("paired_name:" ++ device_id) (some nm)
          | none => m
        ({ s with metadata := m, paired_devices := rows },
         .ok (install_status.getD "paired") "manager" target_ip device_id)

/-- `routes.heartbeat`'s registry mutation: set `last_seen` of the first row
whose `device_id` matches; leave everything else alone. -/
def update_heartbeat (rows : List PairedDevice) (device_id : String) (t : ℚ) :
    List PairedDevice :=
  match rows with
  | [] => []
  | pd :: rest =>
    if pd.device_id = device_id then { pd with last_seen := some t } :: rest
    else pd :: update_heartbeat rest device_id t

/-- `routes.heartbeat`: `POST /cluster/heartbeat` with the request's
`device_id` and (always-truthy) `time`; replies `{ok: true}` whether or not
a row matched. -/
def heartbeat (s : ClusterState) (device_id : String) (t : ℚ) :
    ClusterState × Bool :=
  ({ s with paired_devices := update_heartbeat s.paired_devices device_id t }, true)

/-- `routes.revoke_device`: delete the first row with the given id, or
report not-found. -/
def revoke_device : List PairedDevice → String → Option (List PairedDevice)
  | [], _ => none
  | pd :: rest, device_id =>
    if pd.device_id = device_id then some rest
    else (revoke_device rest device_id).map (pd :: ·)

/-- The status computation of `list_cluster_devices` (routes.py lines
282-286): `"offline"` without a last-seen time, otherwise thresholds on
`now − last_seen` in seconds. -/
def list_device_status (now : ℚ) (last_seen : Option ℚ) : String :=
  match last_seen with
  | none => "offline"
  | some ls =>
    let delta := now - ls
    if delta < 120 then "online" else if delta < 600 then "warning" else "offline"

/-- The status computation of `get_cluster_device` (routes.py lines 391-395),
textually duplicated in the source. -/
def single_device_status (now : ℚ) (last_seen : Option ℚ) : String :=
  match last_seen with
  | none => "offline"
  | some ls =>
    let delta := now - ls
    if delta < 120 then "online" else if delta < 600 then "warning" else "offline"

/-- Modelled from the spec: the derived-status function as the specification
states it, with its explicit `120 ≤ delta < 600` middle band. -/
def specDerivedStatus (now : ℚ) (last_seen : Option ℚ) : String :=
  match last_seen with
  | none => "offline"
  | some ls =>
    if now - ls < 120 then "online"
    else if 120 ≤ now - ls ∧ now - ls < 600 then "warning"
    else "offline"

/-- One entry of the `GET /cluster/devices` response (timestamps kept as
numbers rather than ISO strings). -/
structure DeviceEntry where
  device_id : String
  ip_address : String
  role : String
  cluster_id : Option String
  paired_at : Option ℚ
  last_seen : Option ℚ
  status : String
  status_color : String
  display_name : String
deriving DecidableEq

/-- The status colour assigned next to each computed status. -/
def status_color_of (computed : String) : String :=
  if computed = "online" then "green"
  else if computed = "warning" then "yellow" else "red"

/-- The per-row entry built by `list_cluster_devices`: derived status, its
colour, and the display name from the persisted `paired_name:<id>` metadata
with the device id as fallback. -/
def row_entry (m : List DeviceMetadataRow) (now : ℚ) (row : PairedDevice) :
    DeviceEntry :=
  let computed := list_device_status now row.last_seen
  { device_id := row.device_id, ip_address := row.ip_address, role := row.role,
    cluster_id := row.cluster_id, paired_at := row.paired_at,
    last_seen := row.last_seen, status := computed,
    status_color := status_color_of computed,
    display_name := pyOr (get_metadata m ("paired_name:" ++ row.device_id)) row.device_id }

/-- The virtual manager entry `list_cluster_devices` inserts at position 0:
identity and display name from local metadata, role `"manager"`, the
request's host:port (with a localhost fallback) as address, no paired time,
`last_seen = now`, status forced `"online"`. -/
def manager_entry (m : List DeviceMetadataRow) (hostport : String) (now : ℚ) :
    DeviceEntry :=
  let manager_device_id := pyOr (get_metadata m "device_id") "manager"
  { device_id := manager_device_id,
    ip_address := if hostport = "" then "localhost:8000" else hostport,
    role := "manager", cluster_id := get_metadata m "cluster_id",
    paired_at := none, last_seen := some now, status := "online",
    status_color := "green",
    display_name := pyOr (get_metadata m "device_name") manager_device_id }

/-- `routes.list_cluster_devices` without the live probe: per-row entries in
storage order, then the manager entry inserted at the front (the manager
block runs `ensure_default_metadata`, whose commit is part of the returned
state). -/
def list_cluster_devices (s : ClusterState) (hostport : String) (now : ℚ) :
    ClusterState × List DeviceEntry :=
  let base := s.paired_devices.map (row_entry s.metadata now)
  let m := ensure_default_metadata s.metadata
  ({ s with metadata := m }, manager_entry m hostport now :: base)

/-- The network outcome one live probe observes: `health_code = none` models
an exception or timeout of the health call, otherwise its HTTP status;
`info_result` likewise models the fallback info call, carrying the friendly
name when the reply was a JSON object with a `name` field. -/
structure ProbeNet where
  health_code : Option ℕ
  info_result : Option (ℕ × Option String)
deriving DecidableEq

/-- `probe_one` inside `list_cluster_devices`: skip entries without an
address; health 200 marks the entry online; otherwise an info reply of 200
or 401 marks it online and may refresh the display name; every failure
leaves the entry untouched. -/
def probe_one (net : ProbeNet) (d : DeviceEntry) : DeviceEntry :=
  if d.ip_address = "" then d
  else
    match net.health_code with
    | none => d
    | some code =>
      if code = 200 then { d with status := "online", status_color := "green" }
      else
        match net.info_result with
        | none => d
        | some (code2, json_name) =>
          if code2 = 200 ∨ code2 = 401 then
            let d := { d with status := "online", status_color := "green" }
            match json_name with
            | some nm => if nm = "" then d else { d with display_name := nm }
            | none => d
          else d

/-- The live-probe fan-out of `list_cluster_devices`: one isolated task per
entry, each observing its own network outcome and mutating only its own
entry, so the result is the element-wise application of `probe_one`. -/
def run_probes (nets : List ProbeNet) (devices : List DeviceEntry) :
    List DeviceEntry :=
  List.zipWith probe_one nets devices

/-- Drop a tag character-by-character from the front of a list, failing on
any mismatch. -/
def dropTag : List Char → List Char → Option (List Char)
  | [], s => some s
  | _ :: _, [] => none
  | t :: ts, c :: cs => if c = t then dropTag ts cs else none

/-- Strip a literal tag from the front of a string, `none` when the string
does not start with the tag. -/
def stripTag (tag s : String) : Option String :=
  (dropTag tag.data s.data).map (fun cs => ⟨cs⟩)

/-- First SAN entry carrying the given tag, with the tag stripped. -/
def findTag (tag : String) : List String → Option String
  | [] => none
  | s :: rest =>
    match stripTag tag s with
    | some r => some r
    | none => findTag tag rest

/-- Parse the identity pair back out of a SAN DNS-entry list: the first
`device:`-tagged entry and the first `cluster:`-tagged entry. -/
def parseSanIdentity (san : List String) : Option String × Option String :=
  (findTag "device:" san, findTag "cluster:" san)

/-! ### Helper lemmas about the metadata store -/

theorem get_metadata_set_self (m : List DeviceMetadataRow) (k : String)
    (v : Option String) : get_metadata (set_metadata m k v) k = v := by
  induction m with
  | nil => simp [set_metadata, get_metadata]
  | cons r rs ih =>
    by_cases h : r.key = k
    · simp [set_metadata, get_metadata, h]
    · simp [set_metadata, get_metadata, h, ih]

theorem get_metadata_set_ne (m : List DeviceMetadataRow) (k k' : String)
    (v : Option String) (h : k' ≠ k) :
    get_metadata (set_metadata m k v) k' = get_metadata m k' := by
  induction m with
  | nil =>
    simp only [set_metadata, get_metadata]
    rw [if_neg (fun hh => h hh.symm)]
  | cons r rs ih =>
    by_cases hr : r.key = k
    · simp only [set_metadata, if_pos hr, get_metadata]
      rw [if_neg (fun hh : r.key = k' => h (hr ▸ hh).symm),
        if_neg (fun hh : r.key = k' => h (hr ▸ hh).symm)]
    · simp only [set_metadata, if_neg hr, get_metadata, ih]

theorem get_metadata_seed_step (m : List DeviceMetadataRow) (k k' : String) :
    get_metadata
        (if (get_metadata m k).isSome then m else set_metadata m k none) k'
      = get_metadata m k' := by
  by_cases h : (get_metadata m k).isSome
  · rw [if_pos h]
  · rw [if_neg h]
    by_cases hk : k' = k
    · subst hk
      rw [get_metadata_set_self]
      cases hg : get_metadata m k' with
      | none => rfl
      | some v => rw [hg] at h; simp at h
    · rw [get_metadata_set_ne _ _ _ _ hk]

theorem get_metadata_foldl_seed (ks : List String) (m : List DeviceMetadataRow)
    (k : String) :
    get_metadata
        (ks.foldl
          (fun acc k0 =>
            if (get_metadata acc k0).isSome then acc else set_metadata acc k0 none)
          m) k
      = get_metadata m k := by
  induction ks generalizing m with
  | nil => rfl
  | cons k0 ks ih => rw [List.foldl_cons, ih, get_metadata_seed_step]

theorem get_metadata_ensure (m : List DeviceMetadataRow) (k : String) :
    get_metadata (ensure_default_metadata m) k = get_metadata m k :=
  get_metadata_foldl_seed defaultMetadataKeys m k

attribute [irreducible] ensure_default_metadata

theorem pyOr_of_isBlank (v : Option String) (d : String)
    (h : isBlank v = true) : pyOr v d = d := by
  cases v with
  | none => rfl
  | some s =>
    simp only [isBlank, decide_eq_true_eq] at h
    simp [pyOr, h]

theorem isBlank_some_of_ne (x : String) (h : x ≠ "") :
    isBlank (some x) = false := by
  simp [isBlank, h]

theorem isBlank_eq_false_iff (v : Option String) :
    isBlank v = false ↔ ∃ s, v = some s ∧ s ≠ "" := by
  cases v <;> simp [isBlank]

/-! ### Helper lemmas about the derived status -/

theorem list_device_status_eq_spec (now : ℚ) (last_seen : Option ℚ) :
    list_device_status now last_seen = specDerivedStatus now last_seen := by
  cases last_seen with
  | none => rfl
  | some ls =>
    simp only [list_device_status, specDerivedStatus]
    split_ifs with h1 h2 h3 h4 <;> try rfl
    all_goals
      (exfalso;
       first
         | exact h3 ⟨not_lt.mp h1, h2⟩
         | exact h2 h3.2
         | exact h2 h4.2)

theorem single_device_status_eq_spec (now : ℚ) (last_seen : Option ℚ) :
    single_device_status now last_seen = specDerivedStatus now last_seen :=
  list_device_status_eq_spec now last_seen

/-! ### Helper lemmas about SAN tagging -/

theorem dropTag_append (t r : List Char) : dropTag t (t ++ r) = some r := by
  induction t with
  | nil => rfl
  | cons c cs ih => simp [dropTag, ih]

theorem stripTag_append (tag r : String) : stripTag tag (tag ++ r) = some r := by
  unfold stripTag
  rw [String.data_append, dropTag_append]
  rfl

theorem stripTag_cluster_of_device (d : String) :
    stripTag "cluster:" ("device:" ++ d) = none := by
  unfold stripTag
  rw [String.data_append]
  simp [dropTag, String.data]

theorem sign_csr_san (m : List DeviceMetadataRow) (p : CSRPayload) (now : ℚ)
    (gen : CAMaterial) (serial : ℕ) :
    (sign_csr m p now gen serial).2.device_cert_pem.san
      = ["device:" ++ p.device_id, "cluster:" ++ p.cluster_id] := by
  unfold sign_csr
  dsimp only
  split <;> rfl

/-! ### Helper lemmas about the paired-device registry -/

theorem upsert_ids_of_mem (rows : List PairedDevice) (did tip : String)
    (cid : Option String) (now : ℚ)
    (h : did ∈ rows.map PairedDevice.device_id) :
    (upsert_paired_device rows did tip cid now).map PairedDevice.device_id
      = rows.map PairedDevice.device_id := by
  induction rows with
  | nil => simp at h
  | cons pd rest ih =>
    by_cases hd : pd.device_id = did
    · simp [upsert_paired_device, hd]
    · simp only [List.map_cons, List.mem_cons] at h
      rcases h with h | h
      · exact absurd h.symm hd
      · simp [upsert_paired_device, hd, ih h]

theorem upsert_ids_of_not_mem (rows : List PairedDevice) (did tip : String)
    (cid : Option String) (now : ℚ)
    (h : did ∉ rows.map PairedDevice.device_id) :
    (upsert_paired_device rows did tip cid now).map PairedDevice.device_id
      = rows.map PairedDevice.device_id ++ [did] := by
  induction rows with
  | nil => simp [upsert_paired_device]
  | cons pd rest ih =>
    simp only [List.map_cons, List.mem_cons, not_or] at h
    have hd : pd.device_id ≠ did := fun hh => h.1 hh.symm
    simp [upsert_paired_device, hd, ih h.2]

theorem upsert_frame_of_ne (rows : List PairedDevice) (did tip : String)
    (cid : Option String) (now : ℚ) (i : ℕ) (pd : PairedDevice)
    (hi : rows[i]? = some pd) (hne : pd.device_id ≠ did) :
    (upsert_paired_device rows did tip cid now)[i]? = some pd := by
  induction rows generalizing i with
  | nil => simp at hi
  | cons r rest ih =>
    cases i with
    | zero =>
      simp only [List.getElem?_cons_zero, Option.some.injEq] at hi
      subst hi
      simp [upsert_paired_device, hne]
    | succ j =>
      simp only [List.getElem?_cons_succ] at hi
      by_cases hd : r.device_id = did
      · simp [upsert_paired_device, hd, hi]
      · simp [upsert_paired_device, hd, ih j hi]

theorem upsert_updates_first_match (rows : List PairedDevice) (did tip : String)
    (cid : Option String) (now : ℚ) (i : ℕ) (pd : PairedDevice)
    (hi : rows[i]? = some pd) (hm : pd.device_id = did)
    (hfirst : ∀ j q, j < i → rows[j]? = some q → q.device_id ≠ did) :
    (upsert_paired_device rows did tip cid now)[i]?
      = some { pd with
               ip_address := tip, role := "member", cluster_id := cid,
               last_seen := some now,
               paired_at := (match pd.paired_at with
                 | none => some now
                 | some p => some p) } := by
  induction rows generalizing i with
  | nil => simp at hi
  | cons r rest ih =>
    cases i with
    | zero =>
      simp only [List.getElem?_cons_zero, Option.some.injEq] at hi
      subst hi
      simp [upsert_paired_device, hm]
    | succ j =>
      simp only [List.getElem?_cons_succ] at hi
      have hr : r.device_id ≠ did :=
        hfirst 0 r (Nat.succ_pos j) (by simp)
      simp only [upsert_paired_device, if_neg hr, List.getElem?_cons_succ]
      exact ih j hi (fun j' q hj' hq => hfirst (j' + 1) q (Nat.succ_lt_succ hj') (by simpa using hq))

theorem update_heartbeat_ids (rows : List PairedDevice) (d : String) (t : ℚ) :
    (update_heartbeat rows d t).map PairedDevice.device_id
      = rows.map PairedDevice.device_id := by
  induction rows with
  | nil => rfl
  | cons r rest ih =>
    by_cases hd : r.device_id = d
    · simp [update_heartbeat, hd]
    · simp [update_heartbeat, hd, ih]

theorem update_heartbeat_frame_of_ne (rows : List PairedDevice) (d : String)
    (t : ℚ) (i : ℕ) (pd : PairedDevice)
    (hi : rows[i]? = some pd) (hne : pd.device_id ≠ d) :
    (update_heartbeat rows d t)[i]? = some pd := by
  induction rows generalizing i with
  | nil => simp at hi
  | cons r rest ih =>
    cases i with
    | zero =>
      simp only [List.getElem?_cons_zero, Option.some.injEq] at hi
      subst hi
      simp [update_heartbeat, hne]
    | succ j =>
      simp only [List.getElem?_cons_succ] at hi
      by_cases hd : r.device_id = d
      · simp [update_heartbeat, hd, hi]
      · simp [update_heartbeat, hd, ih j hi]

theorem update_heartbeat_first_match (rows : List PairedDevice) (d : String)
    (t : ℚ) (i : ℕ) (pd : PairedDevice)
    (hi : rows[i]? = some pd) (hm : pd.device_id = d)
    (hfirst : ∀ j q, j < i → rows[j]? = some q → q.device_id ≠ d) :
    (update_heartbeat rows d t)[i]? = some { pd with last_seen := some t } := by
  induction rows generalizing i with
  | nil => simp at hi
  | cons r rest ih =>
    cases i with
    | zero =>
      simp only [List.getElem?_cons_zero, Option.some.injEq] at hi
      subst hi
      simp [update_heartbeat, hm]
    | succ j =>
      simp only [List.getElem?_cons_succ] at hi
      have hr : r.device_id ≠ d := hfirst 0 r (Nat.succ_pos j) (by simp)
      simp only [update_heartbeat, if_neg hr, List.getElem?_cons_succ]
      exact ih j hi (fun j' q hj' hq => hfirst (j' + 1) q (Nat.succ_lt_succ hj') (by simpa using hq))

theorem update_heartbeat_no_match (rows : List PairedDevice) (d : String)
    (t : ℚ) (h : ∀ pd ∈ rows, pd.device_id ≠ d) :
    update_heartbeat rows d t = rows := by
  induction rows with
  | nil => rfl
  | cons r rest ih =>
    have hr : r.device_id ≠ d := h r (List.mem_cons_self r rest)
    simp only [update_heartbeat, if_neg hr]
    rw [ih (fun pd hpd => h pd (List.mem_cons_of_mem r hpd))]

theorem update_heartbeat_length (rows : List PairedDevice) (d : String) (t : ℚ) :
    (update_heartbeat rows d t).length = rows.length := by
  have := congrArg List.length (update_heartbeat_ids rows d t)
  simpa using this

theorem revoke_device_sublist (rows : List PairedDevice) (d : String)
    (rest : List PairedDevice) (h : revoke_device rows d = some rest) :
    rest.Sublist rows := by
  induction rows generalizing rest with
  | nil => simp [revoke_device] at h
  | cons r rs ih =>
    by_cases hd : r.device_id = d
    · simp only [revoke_device, if_pos hd, Option.some.injEq] at h
      subst h
      exact List.sublist_cons_self r rs
    · simp only [revoke_device, if_neg hd] at h
      cases hrec : revoke_device rs d with
      | none => rw [hrec] at h; simp at h
      | some rs' =>
        rw [hrec] at h
        simp only [Option.map_some', Option.some.injEq] at h
        subst h
        exact List.Sublist.cons₂ r (ih rs' hrec)

/-! ### Helper lemmas about CA bootstrap -/

theorem cluster_prefix_ne_empty (x : String) : ("cluster-" ++ x) ≠ "" := by
  intro h
  have h2 : "cluster-".data ++ x.data = ([] : List Char) := by
    simpa [String.data_append] using congrArg String.data h
  rcases List.append_eq_nil.mp h2 with ⟨h3, _⟩
  exact absurd h3 (by decide)

theorem get_store_ca_fingerprint (m : List DeviceMetadataRow) (g : CAMaterial) :
    get_metadata (store_ca m g) "ca_fingerprint" = some g.fingerprint := by
  unfold store_ca
  rw [get_metadata_set_self]

theorem get_store_ca_key (m : List DeviceMetadataRow) (g : CAMaterial) :
    get_metadata (store_ca m g) "ca_key_pem" = some g.key_pem := by
  unfold store_ca
  rw [get_metadata_set_ne _ _ _ _ (by decide), get_metadata_set_self]

theorem get_store_ca_cert (m : List DeviceMetadataRow) (g : CAMaterial) :
    get_metadata (store_ca m g) "ca_cert_pem" = some g.cert_pem := by
  unfold store_ca
  rw [get_metadata_set_ne _ _ _ _ (by decide),
    get_metadata_set_ne _ _ _ _ (by decide), get_metadata_set_self]

theorem get_store_ca_other (m : List DeviceMetadataRow) (g : CAMaterial)
    (k : String) (h1 : k ≠ "ca_cert_pem") (h2 : k ≠ "ca_key_pem")
    (h3 : k ≠ "ca_fingerprint") :
    get_metadata (store_ca m g) k = get_metadata m k := by
  unfold store_ca
  rw [get_metadata_set_ne _ _ _ _ h3, get_metadata_set_ne _ _ _ _ h2,
    get_metadata_set_ne _ _ _ _ h1]

theorem bootstrap_cluster_id_spec (m : List DeviceMetadataRow) (now : ℚ) :
    get_metadata (bootstrap_cluster_id m now).1 "cluster_id"
        = some (bootstrap_cluster_id m now).2 ∧
    (bootstrap_cluster_id m now).2 ≠ "" ∧
    (∀ k, k ≠ "cluster_id" →
      get_metadata (bootstrap_cluster_id m now).1 k = get_metadata m k) := by
  unfold bootstrap_cluster_id
  dsimp only
  cases hb : isBlank (get_metadata m "cluster_id") with
  | true =>
    rw [if_pos rfl]
    exact ⟨get_metadata_set_self _ _ _, cluster_prefix_ne_empty _,
      fun k hk => get_metadata_set_ne _ _ _ _ hk⟩
  | false =>
    rcases (isBlank_eq_false_iff _).mp hb with ⟨s, hs, hsne⟩
    rw [if_neg Bool.false_ne_true]
    refine ⟨?_, ?_, fun k hk => rfl⟩
    · rw [hs]
      rfl
    · rw [hs]
      exact hsne

theorem bootstrap_ca_stores_result (m : List DeviceMetadataRow) (t : ℚ)
    (g : CAMaterial) (hc : g.cert_pem ≠ "") (hk : g.key_pem ≠ "")
    (hf : g.fingerprint ≠ "") :
    get_metadata (bootstrap_ca m t g).1 "cluster_id"
        = some (bootstrap_ca m t g).2.cluster_id ∧
    (bootstrap_ca m t g).2.cluster_id ≠ "" ∧
    get_metadata (bootstrap_ca m t g).1 "ca_cert_pem"
        = some (bootstrap_ca m t g).2.ca_cert_pem ∧
    (bootstrap_ca m t g).2.ca_cert_pem ≠ "" ∧
    get_metadata (bootstrap_ca m t g).1 "ca_fingerprint"
        = some (bootstrap_ca m t g).2.ca_fingerprint ∧
    (bootstrap_ca m t g).2.ca_fingerprint ≠ "" ∧
    isBlank (get_metadata (bootstrap_ca m t g).1 "ca_key_pem") = false := by
  obtain ⟨hp1, hp2, hp3⟩ :=
    bootstrap_cluster_id_spec (ensure_default_metadata m) t
  unfold bootstrap_ca
  dsimp only
  split_ifs with h
  · -- some CA item missing: fresh material stored
    refine ⟨?_, hp2, ?_, hc, ?_, hf, ?_⟩
    · rw [get_store_ca_other _ _ _ (by decide) (by decide) (by decide), hp1]
    · rw [get_store_ca_cert]
    · rw [get_store_ca_fingerprint]
    · rw [get_store_ca_key]
      exact isBlank_some_of_ne _ hk
  · -- CA fully present: stored values reused
    simp only [Bool.or_eq_true, not_or, Bool.not_eq_true] at h
    obtain ⟨⟨hcert, hkey⟩, hfp⟩ := h
    rcases (isBlank_eq_false_iff _).mp hcert with ⟨sc, hsc, hscne⟩
    rcases (isBlank_eq_false_iff _).mp hfp with ⟨sf, hsf, hsfne⟩
    refine ⟨hp1, hp2, ?_, ?_, ?_, ?_, hkey⟩
    · rw [hsc]
      rfl
    · dsimp only
      rw [hsc]
      exact hscne
    · rw [hsf]
      rfl
    · dsimp only
      rw [hsf]
      exact hsfne


/-! ### Claim theorems -/

/-- C1: for every device identifier and cluster identifier, generating a CSR
via `generate_key_and_csr` and signing it via `sign_csr` yields a certificate
whose subject-alternative-name extension holds exactly the two DNS entries
`device:<d>` and `cluster:<c>`, and parsing that SAN recovers both
identifiers exactly. -/
theorem csr_sign_san_roundtrip (common_name d c key : String)
    (m : List DeviceMetadataRow) (now : ℚ) (gen : CAMaterial) (serial : ℕ) :
    (generate_key_and_csr common_name d c key).2.san
        = ["device:" ++ d, "cluster:" ++ c] ∧
    (sign_csr m
        { csr_pem := (generate_key_and_csr common_name d c key).2,
          device_id := d, cluster_id := c, name := none }
        now gen serial).2.device_cert_pem.san
        = ["device:" ++ d, "cluster:" ++ c] ∧
    parseSanIdentity
        (sign_csr m
          { csr_pem := (generate_key_and_csr common_name d c key).2,
            device_id := d, cluster_id := c, name := none }
          now gen serial).2.device_cert_pem.san
        = (some d, some c) := by
  refine ⟨rfl, sign_csr_san _ _ _ _ _, ?_⟩
  rw [sign_csr_san]
  show parseSanIdentity ["device:" ++ d, "cluster:" ++ c] = (some d, some c)
  simp only [parseSanIdentity, findTag, stripTag_cluster_of_device,
    stripTag_append]

/-- C4: the derived device status is the pure threshold function of `now`
and `last_seen` stated by the specification (`specDerivedStatus`), and both
the device-list read and the single-device read compute status by exactly
this function. -/
theorem derived_status_thresholds (now : ℚ) (last_seen : Option ℚ) :
    list_device_status now last_seen = specDerivedStatus now last_seen ∧
    single_device_status now last_seen = specDerivedStatus now last_seen :=
  ⟨list_device_status_eq_spec now last_seen,
   single_device_status_eq_spec now last_seen⟩

/-- C6: every pairing-token issuance appends a PairingToken row keyed by the
fresh jti with `used = false` and `expires_at = now + 10 minutes` (hence
strictly after `created_at`), and the returned signed claims embed that same
jti, cluster id and expiry. -/
theorem pairing_token_persisted (s : ClusterState) (req : PairingTokenRequest)
    (now : ℚ) (jti : String) :
    ∃ row : PairingToken,
      (create_pairing_token s req now jti).1.pairing_tokens
          = s.pairing_tokens ++ [row] ∧
      row.token = jti ∧
      row.used = false ∧
      row.created_at = now ∧
      row.expires_at = now + 10 * 60 ∧
      row.created_at < row.expires_at ∧
      (create_pairing_token s req now jti).2.token.jti = row.token ∧
      some (create_pairing_token s req now jti).2.token.cluster_id
          = row.cluster_id ∧
      (create_pairing_token s req now jti).2.token.exp = pyInt row.expires_at ∧
      (create_pairing_token s req now jti).2.exp = row.expires_at := by
  refine ⟨_, rfl, rfl, rfl, rfl, rfl, ?_, rfl, rfl, rfl, rfl⟩
  exact lt_add_of_pos_right now (by norm_num)

/-- C9: a heartbeat for device id `d` sets only the `last_seen` field of the
first matching row to the caller-supplied time, leaves every other field and
every non-matching row and all other state unchanged, and replies ok even
when no row matches (in which case the state is entirely unchanged). -/
theorem heartbeat_frame_effect (s : ClusterState) (d : String) (t : ℚ) :
    (heartbeat s d t).2 = true ∧
    (heartbeat s d t).1.metadata = s.metadata ∧
    (heartbeat s d t).1.pairing_tokens = s.pairing_tokens ∧
    (heartbeat s d t).1.paired_devices.length = s.paired_devices.length ∧
    (∀ (i : ℕ) (pd : PairedDevice),
      s.paired_devices[i]? = some pd → pd.device_id ≠ d →
      (heartbeat s d t).1.paired_devices[i]? = some pd) ∧
    (∀ (i : ℕ) (pd : PairedDevice),
      s.paired_devices[i]? = some pd → pd.device_id = d →
      (∀ (j : ℕ) (q : PairedDevice),
        j < i → s.paired_devices[j]? = some q → q.device_id ≠ d) →
      (heartbeat s d t).1.paired_devices[i]?
        = some { pd with last_seen := some t }) ∧
    ((∀ pd ∈ s.paired_devices, pd.device_id ≠ d) → (heartbeat s d t).1 = s) := by
  refine ⟨rfl, rfl, rfl, update_heartbeat_length _ _ _, ?_, ?_, ?_⟩
  · exact fun i pd hi hne => update_heartbeat_frame_of_ne _ _ _ i pd hi hne
  · exact fun i pd hi hm hfirst =>
      update_heartbeat_first_match _ _ _ i pd hi hm hfirst
  · intro h
    show ({ s with
            paired_devices := update_heartbeat s.paired_devices d t } :
          ClusterState) = s
    rw [update_heartbeat_no_match _ _ _ h]

/-- C10: when no truthy cluster id is stored, pairing-token issuance still
succeeds using the placeholder `"cluster-stub"`, embedding it both in the
persisted row and in the signed claims, while the stored cluster id metadata
remains unset. -/
theorem pairing_token_cluster_stub (s : ClusterState) (req : PairingTokenRequest)
    (now : ℚ) (jti : String)
    (h : isBlank (get_metadata s.metadata "cluster_id") = true) :
    (create_pairing_token s req now jti).2.cluster_id = "cluster-stub" ∧
    (create_pairing_token s req now jti).2.token.cluster_id = "cluster-stub" ∧
    (∃ row : PairingToken,
      (create_pairing_token s req now jti).1.pairing_tokens
          = s.pairing_tokens ++ [row] ∧
      row.cluster_id = some "cluster-stub") ∧
    get_metadata (create_pairing_token s req now jti).1.metadata "cluster_id"
      = get_metadata s.metadata "cluster_id" := by
  have hcl : pyOr (get_metadata (ensure_default_metadata s.metadata)
      "cluster_id") "cluster-stub" = "cluster-stub" := by
    rw [get_metadata_ensure]
    exact pyOr_of_isBlank _ _ h
  refine ⟨?_, ?_, ⟨_, rfl, ?_⟩, ?_⟩
  · exact hcl
  · exact hcl
  · show some (pyOr (get_metadata (ensure_default_metadata s.metadata)
        "cluster_id") "cluster-stub") = some "cluster-stub"
    rw [hcl]
  · show get_metadata (ensure_default_metadata s.metadata) "cluster_id"
        = get_metadata s.metadata "cluster_id"
    exact get_metadata_ensure _ _

/-- Witness for C10 at a concrete input: the empty metadata store holds no
cluster id, and issuance falls back to the stub identifier. -/
theorem pairing_token_cluster_stub_witness :
    isBlank (get_metadata ([] : List DeviceMetadataRow) "cluster_id") = true ∧
    (create_pairing_token ⟨[], [], []⟩ ⟨none, none⟩ 0 "jti-0").2.cluster_id
      = "cluster-stub" :=
  ⟨by decide,
   (pairing_token_cluster_stub ⟨[], [], []⟩ ⟨none, none⟩ 0 "jti-0"
     (by decide)).1⟩

theorem bootstrap_cluster_id_of_present (m : List DeviceMetadataRow) (now : ℚ)
    (s : String) (hs : get_metadata m "cluster_id" = some s) (hsne : s ≠ "") :
    bootstrap_cluster_id m now = (m, s) := by
  unfold bootstrap_cluster_id
  dsimp only
  rw [hs, if_neg (by rw [isBlank_some_of_ne _ hsne]; exact Bool.false_ne_true)]
  rfl

theorem sign_csr_blank_state (m : List DeviceMetadataRow) (p : CSRPayload)
    (now : ℚ) (gen : CAMaterial) (serial : ℕ)
    (hb : isBlank (get_metadata m "ca_cert_pem") = true) :
    (sign_csr m p now gen serial).1
        = store_ca (ensure_default_metadata m) gen ∧
    (sign_csr m p now gen serial).2.ca_cert_pem = gen.cert_pem := by
  unfold sign_csr
  dsimp only
  rw [show get_metadata (ensure_default_metadata m) "ca_cert_pem"
      = get_metadata m "ca_cert_pem" from get_metadata_ensure _ _,
    hb, Bool.true_or, if_pos rfl]
  exact ⟨rfl, by rw [get_store_ca_cert]; rfl⟩

theorem sign_csr_present_state (m : List DeviceMetadataRow) (p : CSRPayload)
    (now : ℚ) (gen : CAMaterial) (serial : ℕ) (c k : String)
    (hcert : get_metadata m "ca_cert_pem" = some c) (hcne : c ≠ "")
    (hkey : get_metadata m "ca_key_pem" = some k) (hkne : k ≠ "") :
    (sign_csr m p now gen serial).1 = ensure_default_metadata m ∧
    (sign_csr m p now gen serial).2.ca_cert_pem = c := by
  unfold sign_csr
  dsimp only
  rw [show get_metadata (ensure_default_metadata m) "ca_cert_pem"
      = get_metadata m "ca_cert_pem" from get_metadata_ensure _ _,
    show get_metadata (ensure_default_metadata m) "ca_key_pem"
      = get_metadata m "ca_key_pem" from get_metadata_ensure _ _,
    hcert, hkey, isBlank_some_of_ne _ hcne, isBlank_some_of_ne _ hkne,
    Bool.or_false, if_neg Bool.false_ne_true]
  exact ⟨rfl, rfl⟩

/-- C2: CA material, once created, is reused and never regenerated: a second
`bootstrap_ca` call returns the identical cluster id and CA fingerprint
whatever fresh material or time it is offered; and `sign_csr` with no stored
CA auto-creates one and succeeds, while a second `sign_csr` call reuses the
stored CA fingerprint and certificate instead of the new material. -/
theorem ca_bootstrap_idempotent_and_sign_reuse
    (m : List DeviceMetadataRow) (t1 t2 t3 t4 : ℚ) (g1 g2 : CAMaterial)
    (p1 p2 : CSRPayload) (n1 n2 : ℕ)
    (hc : g1.cert_pem ≠ "") (hk : g1.key_pem ≠ "") (hf : g1.fingerprint ≠ "") :
    (bootstrap_ca (bootstrap_ca m t1 g1).1 t2 g2).2
        = (bootstrap_ca m t1 g1).2 ∧
    (isBlank (get_metadata m "ca_cert_pem") = true →
      isBlank (get_metadata m "ca_key_pem") = true →
      get_metadata (sign_csr m p1 t3 g1 n1).1 "ca_fingerprint"
          = some g1.fingerprint ∧
      (sign_csr m p1 t3 g1 n1).2.ca_cert_pem = g1.cert_pem ∧
      get_metadata (sign_csr (sign_csr m p1 t3 g1 n1).1 p2 t4 g2 n2).1
          "ca_fingerprint" = some g1.fingerprint ∧
      (sign_csr (sign_csr m p1 t3 g1 n1).1 p2 t4 g2 n2).2.ca_cert_pem
          = g1.cert_pem) := by
  constructor
  · obtain ⟨hcl, hclne, hcert, hcertne, hfp, hfpne, hkeyb⟩ :=
      bootstrap_ca_stores_result m t1 g1 hc hk hf
    generalize hr : bootstrap_ca m t1 g1 = r at hcl hclne hcert hcertne hfp hfpne hkeyb ⊢
    have hpres : get_metadata (ensure_default_metadata r.1) "cluster_id"
        = some r.2.cluster_id := by
      rw [get_metadata_ensure]
      exact hcl
    unfold bootstrap_ca
    rw [bootstrap_cluster_id_of_present (ensure_default_metadata r.1) t2 _
      hpres hclne]
    dsimp only
    rw [show get_metadata (ensure_default_metadata r.1) "ca_cert_pem"
        = get_metadata r.1 "ca_cert_pem" from get_metadata_ensure _ _,
      show get_metadata (ensure_default_metadata r.1) "ca_key_pem"
        = get_metadata r.1 "ca_key_pem" from get_metadata_ensure _ _,
      show get_metadata (ensure_default_metadata r.1) "ca_fingerprint"
        = get_metadata r.1 "ca_fingerprint" from get_metadata_ensure _ _,
      hcert, hfp, hkeyb, isBlank_some_of_ne _ hcertne,
      isBlank_some_of_ne _ hfpne, Bool.or_false, Bool.false_or,
      if_neg Bool.false_ne_true]
    rfl
  · intro hbc hbk
    obtain ⟨hs1, hb1⟩ := sign_csr_blank_state m p1 t3 g1 n1 hbc
    obtain ⟨hs2, hb2⟩ := sign_csr_present_state (sign_csr m p1 t3 g1 n1).1 p2
      t4 g2 n2 g1.cert_pem g1.key_pem (by rw [hs1, get_store_ca_cert]) hc
      (by rw [hs1, get_store_ca_key]) hk
    refine ⟨?_, hb1, ?_, hb2⟩
    · rw [hs1, get_store_ca_fingerprint]
    · rw [hs2, get_metadata_ensure, hs1, get_store_ca_fingerprint]

/-- Witness for C2 at a concrete input: a second bootstrap over the state
left by a first bootstrap of the empty store returns the first call's
result. -/
theorem ca_bootstrap_idempotent_and_sign_reuse_witness :
    (bootstrap_ca (bootstrap_ca [] 0 ⟨"CERT1", "KEY1", "FP1"⟩).1 1
        ⟨"CERT2", "KEY2", "FP2"⟩).2
      = (bootstrap_ca [] 0 ⟨"CERT1", "KEY1", "FP1"⟩).2 :=
  (ca_bootstrap_idempotent_and_sign_reuse [] 0 1 2 3
    ⟨"CERT1", "KEY1", "FP1"⟩ ⟨"CERT2", "KEY2", "FP2"⟩
    ⟨⟨⟨"cn"⟩, [], "pk"⟩, "d", "c", none⟩ ⟨⟨⟨"cn"⟩, [], "pk"⟩, "d", "c", none⟩
    0 0 (by decide) (by decide) (by decide)).1

/-- C3: pairing against a target address already present in the registry
fails with Conflict (HTTP 409) and leaves the whole state byte-for-byte
unchanged: no pairing token is issued and no row is touched. -/
theorem pair_conflict_leaves_state_unchanged (s : ClusterState)
    (target : String) (now : ℚ) (jti : String) (csrReply : Option CSRPayload)
    (gen : CAMaterial) (serial : ℕ) (installReply : Option (Option String))
    (hne : target ≠ "")
    (hex : (s.paired_devices.find? (fun pd => pd.ip_address = target)).isSome
      = true) :
    pair_device_via_manager s target now jti csrReply gen serial installReply
      = (s, PairOutcome.httpError 409 "Device already paired") := by
  unfold pair_device_via_manager
  rw [if_neg hne, if_pos hex]

/-- Witness for C3 at a concrete input: a registry holding the target
address makes pairing return Conflict with the state unchanged. -/
theorem pair_conflict_leaves_state_unchanged_witness :
    pair_device_via_manager
        ⟨[], [⟨"dev-1", "10.0.0.5", "member", none, none, none, none⟩], []⟩
        "10.0.0.5" 0 "jti-1" none ⟨"", "", ""⟩ 0 none
      = (⟨[], [⟨"dev-1", "10.0.0.5", "member", none, none, none, none⟩], []⟩,
         PairOutcome.httpError 409 "Device already paired") :=
  pair_conflict_leaves_state_unchanged
    ⟨[], [⟨"dev-1", "10.0.0.5", "member", none, none, none, none⟩], []⟩
    "10.0.0.5" 0 "jti-1" none ⟨"", "", ""⟩ 0 none (by decide) (by decide)

/-- C5: the registry never gains a duplicate device id: upserting an
existing id rewrites that row in place (same id list, same length, other
rows untouched), upserting preserves id-distinctness, and so do heartbeat
updates and revocation. -/
theorem registry_device_id_unique_invariant (rows : List PairedDevice)
    (did tip : String) (cid : Option String) (now : ℚ) (d2 : String) (t2 : ℚ)
    (h : (rows.map PairedDevice.device_id).Nodup) :
    ((upsert_paired_device rows did tip cid now).map
        PairedDevice.device_id).Nodup ∧
    (did ∈ rows.map PairedDevice.device_id →
      (upsert_paired_device rows did tip cid now).map PairedDevice.device_id
          = rows.map PairedDevice.device_id ∧
      (upsert_paired_device rows did tip cid now).length = rows.length) ∧
    (∀ (i : ℕ) (pd : PairedDevice),
      rows[i]? = some pd → pd.device_id ≠ did →
      (upsert_paired_device rows did tip cid now)[i]? = some pd) ∧
    ((update_heartbeat rows d2 t2).map PairedDevice.device_id).Nodup ∧
    (∀ rest : List PairedDevice, revoke_device rows d2 = some rest →
      (rest.map PairedDevice.device_id).Nodup) := by
  refine ⟨?_, ?_, ?_, ?_, ?_⟩
  · by_cases hm : did ∈ rows.map PairedDevice.device_id
    · rw [upsert_ids_of_mem _ _ _ _ _ hm]
      exact h
    · rw [upsert_ids_of_not_mem _ _ _ _ _ hm]
      rw [List.nodup_append]
      exact ⟨h, List.nodup_singleton _,
        by simpa [List.disjoint_singleton] using hm⟩
  · intro hm
    have hids := upsert_ids_of_mem rows did tip cid now hm
    refine ⟨hids, ?_⟩
    have hlen := congrArg List.length hids
    simpa using hlen
  · exact fun i pd hi hne => upsert_frame_of_ne _ _ _ _ _ i pd hi hne
  · rw [update_heartbeat_ids]
    exact h
  · intro rest hrev
    exact List.Nodup.sublist
      (List.Sublist.map PairedDevice.device_id
        (revoke_device_sublist rows d2 rest hrev)) h

/-- Witness for C5 at a concrete input: a one-row registry with distinct ids
stays duplicate-free after re-pairing the same id. -/
theorem registry_device_id_unique_invariant_witness :
    (([⟨"dev-1", "10.0.0.5", "member", none, none, none, none⟩] :
        List PairedDevice).map PairedDevice.device_id).Nodup ∧
    ((upsert_paired_device
        [⟨"dev-1", "10.0.0.5", "member", none, none, none, none⟩]
        "dev-1" "10.0.0.6" none 0).map PairedDevice.device_id).Nodup :=
  ⟨by decide,
   (registry_device_id_unique_invariant
     [⟨"dev-1", "10.0.0.5", "member", none, none, none, none⟩]
     "dev-1" "10.0.0.6" none 0 "x" 0 (by decide)).1⟩

/-- C7: the device-list read always returns the synthetic manager entry
first — built from local metadata with role `"manager"`, status `"online"`,
`last_seen = now` and no paired time — followed by the PairedDevice rows in
storage order, each annotated with the derived status of the spec. -/
theorem list_devices_manager_first (s : ClusterState) (hostport : String)
    (now : ℚ) :
    ∃ (mgr : DeviceEntry) (tail : List DeviceEntry),
      (list_cluster_devices s hostport now).2 = mgr :: tail ∧
      mgr.role = "manager" ∧ mgr.status = "online" ∧
      mgr.last_seen = some now ∧ mgr.paired_at = none ∧
      mgr.device_id = pyOr (get_metadata s.metadata "device_id") "manager" ∧
      mgr.cluster_id = get_metadata s.metadata "cluster_id" ∧
      mgr.display_name
        = pyOr (get_metadata s.metadata "device_name") mgr.device_id ∧
      tail = s.paired_devices.map (row_entry s.metadata now) ∧
      tail.length = s.paired_devices.length ∧
      (∀ i : ℕ, (tail[i]?).map DeviceEntry.device_id
        = (s.paired_devices[i]?).map PairedDevice.device_id) ∧
      (∀ i : ℕ, (tail[i]?).map DeviceEntry.status
        = (s.paired_devices[i]?).map
            (fun r => specDerivedStatus now r.last_seen)) ∧
      (∀ i : ℕ, (tail[i]?).map DeviceEntry.last_seen
        = (s.paired_devices[i]?).map PairedDevice.last_seen) := by
  refine ⟨manager_entry (ensure_default_metadata s.metadata) hostport now,
    s.paired_devices.map (row_entry s.metadata now),
    rfl, rfl, rfl, rfl, rfl, ?_, ?_, ?_, rfl, by simp, ?_, ?_, ?_⟩
  · simp only [manager_entry]
    rw [get_metadata_ensure]
  · simp only [manager_entry]
    rw [get_metadata_ensure]
  · simp only [manager_entry]
    simp only [get_metadata_ensure]
  · intro i
    simp only [List.getElem?_map]
    cases s.paired_devices[i]? <;> rfl
  · intro i
    simp only [List.getElem?_map]
    cases hrow : s.paired_devices[i]? with
    | none => rfl
    | some r =>
      simp only [Option.map_some']
      rw [show (row_entry s.metadata now r).status
          = list_device_status now r.last_seen from rfl,
        list_device_status_eq_spec]
  · intro i
    simp only [List.getElem?_map]
    cases s.paired_devices[i]? <;> rfl

/-- C8: a live probe never worsens a status: a failed or timed-out probe
leaves its entry untouched, a probe outcome can only set a status to
`"online"`, and for three peers of which the first times out and the other
two answer health with 200, exactly the two responders come back
`"online"` while the timed-out peer keeps its pre-probe entry. -/
theorem probe_failures_isolated :
    (∀ (info : Option (ℕ × Option String)) (d : DeviceEntry),
      probe_one ⟨none, info⟩ d = d) ∧
    (∀ (net : ProbeNet) (d : DeviceEntry),
      (probe_one net d).status = "online" ∨
      (probe_one net d).status = d.status) ∧
    (∀ d0 d1 d2 : DeviceEntry, d1.ip_address ≠ "" → d2.ip_address ≠ "" →
      run_probes [⟨none, none⟩, ⟨some 200, none⟩, ⟨some 200, none⟩]
          [d0, d1, d2]
        = [d0, { d1 with status := "online", status_color := "green" },
           { d2 with status := "online", status_color := "green" }]) := by
  refine ⟨?_, ?_, ?_⟩
  · intro info d
    unfold probe_one
    dsimp only
    split <;> rfl
  · intro net d
    obtain ⟨hcode, hinfo⟩ := net
    unfold probe_one
    dsimp only
    by_cases hip : d.ip_address = ""
    · rw [if_pos hip]
      right
      rfl
    · rw [if_neg hip]
      cases hcode with
      | none => right; rfl
      | some code =>
        dsimp only
        by_cases hc : code = 200
        · rw [if_pos hc]
          left
          rfl
        · rw [if_neg hc]
          cases hinfo with
          | none => right; rfl
          | some pr =>
            obtain ⟨c2, nm⟩ := pr
            dsimp only
            by_cases h2 : c2 = 200 ∨ c2 = 401
            · rw [if_pos h2]
              cases nm with
              | none => left; rfl
              | some s =>
                dsimp only
                by_cases hs : s = ""
                · rw [if_pos hs]
                  left
                  rfl
                · rw [if_neg hs]
                  left
                  rfl
            · rw [if_neg h2]
              right
              rfl
  · intro d0 d1 d2 h1 h2
    have e0 : probe_one ⟨none, none⟩ d0 = d0 := by
      unfold probe_one
      dsimp only
      split <;> rfl
    have e1 : probe_one ⟨some 200, none⟩ d1
        = { d1 with status := "online", status_color := "green" } := by
      unfold probe_one
      dsimp only
      rw [if_neg h1]
      rfl
    have e2 : probe_one ⟨some 200, none⟩ d2
        = { d2 with status := "online", status_color := "green" } := by
      unfold probe_one
      dsimp only
      rw [if_neg h2]
      rfl
    simp only [run_probes, List.zipWith_cons_cons, List.zipWith_nil_left,
      e0, e1, e2]
